import Mathlib

/-!
Shallow embedding of the payment core of the `nest-payments-project`
repository: the Amount value object, the TransactionId value object, the
Payment aggregate and its state machine, and the two transfer use cases
(`ProcessPaymentUseCase.execute`, `RefundPaymentUseCase.execute`).

TypeScript numbers that hold cent values stay below 2^53 in every reachable
computation here, so integer arithmetic is exact and is modelled with `Int`
(the raw input of `Amount.create` is a general JS number and is modelled
with `ℚ`, on which `Number.isInteger` becomes `den = 1`).  Exceptions become
`Except`; the two persistence collaborators (Payment Store, Account Balance
Store) become association lists keyed by id inside a `World` record, and
each persisted write is also recorded in an event trace so that ordering
properties can be stated.
-/

namespace Payments

/-- Payment lifecycle states (the TS string enum
PENDING/PROCESSING/COMPLETED/FAILED/REFUNDED). -/
inductive PaymentStatus where
  | PENDING
  | PROCESSING
  | COMPLETED
  | FAILED
  | REFUNDED
deriving DecidableEq, Repr

/-- Amount value object: integer cents (`_value` in the source). -/
structure Amount where
  valueCents : Int
deriving DecidableEq, Repr

/-- `Amount.create(cents)` from `amount.ts`: rejects non-integers, negative
values and values over 999999999, otherwise wraps the cents. The JS `number`
argument is modelled as a rational; `Number.isInteger` is `den = 1`. -/
def Amount.create (cents : ℚ) : Except String Amount :=
  if cents.den ≠ 1 then .error "Amount must be an integer (in cents)"
  else if cents < 0 then .error "Amount cannot be negative"
  else if cents > 999999999 then .error "Amount exceeds maximum allowed value"
  else .ok ⟨cents.num⟩

/-- `Amount.create(cents)` specialised to an integer argument, as in the two
use cases where the argument is a sum or difference of cent values (always an
integer, so the `Number.isInteger` guard passes). -/
def Amount.createCents (cents : Int) : Except String Amount :=
  if cents < 0 then .error "Amount cannot be negative"
  else if cents > 999999999 then .error "Amount exceeds maximum allowed value"
  else .ok ⟨cents⟩

/-- On integer inputs the general factory and the integer specialisation
agree. -/
theorem Amount.create_intCast (i : Int) :
    Amount.create (i : ℚ) = Amount.createCents i := by
  unfold Amount.create Amount.createCents
  have hden : ((i : ℚ)).den = 1 := Rat.den_intCast i
  have hnum : ((i : ℚ)).num = i := Rat.num_intCast i
  simp only [hden, hnum, ne_eq, not_true_eq_false, if_false]
  by_cases h0 : (i : ℚ) < 0
  · have : i < 0 := by exact_mod_cast h0
    simp [h0, this]
  · have hi0 : ¬ i < 0 := by
      intro hc
      exact h0 (by exact_mod_cast hc)
    by_cases h9 : (i : ℚ) > 999999999
    · have : i > 999999999 := by exact_mod_cast h9
      simp [h0, h9, hi0, this]
    · have hi9 : ¬ i > 999999999 := by
        intro hc
        exact h9 (by exact_mod_cast hc)
      simp [h0, h9, hi0, hi9]

/-- Two-digit zero padding of the cents remainder, as produced by
`toFixed(2)`. -/
def padTwo (n : Nat) : String :=
  if n < 10 then "0" ++ toString n else toString n

/-- `Amount.toFormattedString()`: `valueDecimal.toFixed(2)`, i.e. cents
divided by 100 with exactly two decimals ("2500" becomes "25.00"). -/
def Amount.toFormattedString (a : Amount) : String :=
  toString (a.valueCents.toNat / 100) ++ "." ++ padTwo (a.valueCents.toNat % 100)

/-- JS `String.prototype.trim`: strip leading and trailing whitespace. -/
def strTrim (s : String) : String :=
  ⟨((s.data.dropWhile Char.isWhitespace).reverse.dropWhile Char.isWhitespace).reverse⟩

/-- `TransactionId.create(value)` from `transactionId.ts`: requires a
non-empty string, trims it, rejects an empty or over-50-character trimmed
value, and stores the trimmed value. -/
def TransactionId.create (value : String) : Except String String :=
  if value = "" then .error "Transaction ID is required and must be a string"
  else
    let trimmedValue := strTrim value
    if trimmedValue = "" then .error "Transaction ID cannot be empty"
    else if trimmedValue.length > 50 then
      .error "Transaction ID cannot exceed 50 characters"
    else .ok trimmedValue

/-- Domain-rule errors raised by the Payment aggregate's transition
methods (the spec's `DomainRuleViolation` taxonomy entry). -/
inductive DomainError where
  | domainRuleViolation (msg : String)
deriving DecidableEq, Repr

/-- The Payment aggregate's fields (spec §3): identifiers, amount, currency
and payment-method descriptors, status, description, and the timestamps and
failure reason maintained by the state machine.  Timestamps are abstract
`Nat` ticks. -/
structure Payment where
  id : String
  fromUserId : String
  toUserId : String
  amount : Amount
  currency : String
  paymentMethod : String
  status : PaymentStatus
  description : String
  createdAt : Nat
  processedAt : Option Nat
  failureReason : Option String
deriving DecidableEq, Repr

/-- Modelled from the spec: the Payment entity class
(`payment.entity.ts`) is not among the available sources, only its callers
are; spec §4.1 gives its transition rules.  `process()` moves
PENDING → PROCESSING, recording the processing timestamp; from any other
state it fails with a `DomainRuleViolation` and changes nothing. -/
def Payment.process (p : Payment) (now : Nat) : Except DomainError Payment :=
  if p.status = .PENDING then
    .ok { p with status := .PROCESSING, processedAt := some now }
  else .error (.domainRuleViolation "Payment can only be processed from PENDING status")

/-- Modelled from the spec: `complete()` moves PROCESSING → COMPLETED; from
any other state it fails with a `DomainRuleViolation` and changes nothing. -/
def Payment.complete (p : Payment) : Except DomainError Payment :=
  if p.status = .PROCESSING then .ok { p with status := .COMPLETED }
  else .error (.domainRuleViolation "Payment can only be completed from PROCESSING status")

/-- Modelled from the spec: `fail(reason)` moves PROCESSING → FAILED,
recording the failure reason; from any other state it fails with a
`DomainRuleViolation` and changes nothing. -/
def Payment.fail (p : Payment) (reason : String) : Except DomainError Payment :=
  if p.status = .PROCESSING then
    .ok { p with status := .FAILED, failureReason := some reason }
  else .error (.domainRuleViolation "Payment can only be failed from PROCESSING status")

/-- Modelled from the spec: `refund()` moves COMPLETED → REFUNDED; from any
other state it fails with a `DomainRuleViolation` and changes nothing. -/
def Payment.refund (p : Payment) : Except DomainError Payment :=
  if p.status = .COMPLETED then .ok { p with status := .REFUNDED }
  else .error (.domainRuleViolation "Payment can only be refunded from COMPLETED status")

/-- A user account as consumed by the transfer use cases: id, email and the
balance held by the Account Balance Store. -/
structure UserAcct where
  id : String
  email : String
  balance : Amount
deriving DecidableEq, Repr

/-- Association-list lookup by string key (the `findById` of both stores). -/
def lookupKey {α : Type} : List (String × α) → String → Option α
  | [], _ => none
  | (k, v) :: rest, key => if k = key then some v else lookupKey rest key

/-- Association-list update by string key: replaces the first entry with the
key, appends if absent (the `update`/`save` of the Payment Store). -/
def setKey {α : Type} : List (String × α) → String → α → List (String × α)
  | [], key, v => [(key, v)]
  | (k, v') :: rest, key, v =>
      if k = key then (key, v) :: rest else (k, v') :: setKey rest key v

/-- The Account Balance Store's `updateBalance(userId, amount)`: replaces the
stored balance of that user, leaving the store unchanged when the user is
absent. -/
def setBalance : List (String × UserAcct) → String → Amount → List (String × UserAcct)
  | [], _, _ => []
  | (k, u) :: rest, uid, a =>
      if k = uid then (k, { u with balance := a }) :: rest
      else (k, u) :: setBalance rest uid a

/-- The persistent state both use cases act on: the Payment Store and the
Account Balance Store, each keyed by id. -/
structure World where
  payments : List (String × Payment)
  users : List (String × UserAcct)
deriving DecidableEq, Repr

/-- One persisted write, recorded in order of execution. -/
inductive Event where
  | paymentUpdate (p : Payment)
  | balanceUpdate (userId : String) (newBalance : Amount)
deriving DecidableEq, Repr

/-- Errors a use case run can surface, classified by the spec §7 taxonomy:
input validation failures, missing entities, domain-rule violations raised
by the aggregate, and the refund path's insufficient-funds abort. -/
inductive UCError where
  | validation (msg : String)
  | notFound (msg : String)
  | domain (e : DomainError)
  | insufficientFunds (msg : String)
deriving DecidableEq, Repr

/-- `ProcessPaymentResponse` from `processPayment.ts`. -/
structure ProcessPaymentResponse where
  id : String
  status : PaymentStatus
  processedAt : Option Nat
  message : String
  senderNewBalance : Option String
  receiverNewBalance : Option String
deriving DecidableEq, Repr

/-- `ProcessPaymentUseCase.execute` from `processPayment.ts`, step by step:
validate the transaction id; load the payment (`Payment not found` if
absent); `process()` it and persist PROCESSING; load sender then receiver,
failing the payment and persisting FAILED when either is missing; check the
sender's balance against the amount, failing with `Insufficient balance`
when short; build both new balances through `Amount.create`; persist the
sender's balance, then the receiver's; `complete()` and persist COMPLETED;
return the success response.  A thrown exception becomes an `.error` result
that leaves whatever was already persisted in place.  `now` is the clock
value `process()` records. -/
def processPaymentExecute (w : World) (now : Nat) (transactionId : String) :
    Except UCError ProcessPaymentResponse × World × List Event :=
  match TransactionId.create transactionId with
  | .error m => (.error (.validation m), w, [])
  | .ok tid =>
    match lookupKey w.payments tid with
    | none => (.error (.notFound "Payment not found"), w, [])
    | some payment =>
      match payment.process now with
      | .error e => (.error (.domain e), w, [])
      | .ok p1 =>
        let w1 : World := { w with payments := setKey w.payments p1.id p1 }
        match lookupKey w.users p1.fromUserId with
        | none =>
          match p1.fail "Sender user not found" with
          | .error e => (.error (.domain e), w1, [.paymentUpdate p1])
          | .ok p2 =>
            (.ok { id := p2.id, status := p2.status, processedAt := p2.processedAt,
                   message := "Payment failed: Sender user not found",
                   senderNewBalance := none, receiverNewBalance := none },
             { w1 with payments := setKey w1.payments p2.id p2 },
             [.paymentUpdate p1, .paymentUpdate p2])
        | some sender =>
          match lookupKey w.users p1.toUserId with
          | none =>
            match p1.fail "Receiver user not found" with
            | .error e => (.error (.domain e), w1, [.paymentUpdate p1])
            | .ok p2 =>
              (.ok { id := p2.id, status := p2.status, processedAt := p2.processedAt,
                     message := "Payment failed: Receiver user not found",
                     senderNewBalance := none, receiverNewBalance := none },
               { w1 with payments := setKey w1.payments p2.id p2 },
               [.paymentUpdate p1, .paymentUpdate p2])
          | some receiver =>
            if sender.balance.valueCents < p1.amount.valueCents then
              match p1.fail "Insufficient balance" with
              | .error e => (.error (.domain e), w1, [.paymentUpdate p1])
              | .ok p2 =>
                (.ok { id := p2.id, status := p2.status, processedAt := p2.processedAt,
                       message := "Payment failed: Insufficient balance. Required: "
                         ++ p1.amount.toFormattedString ++ ", Available: "
                         ++ sender.balance.toFormattedString,
                       senderNewBalance := none, receiverNewBalance := none },
                 { w1 with payments := setKey w1.payments p2.id p2 },
                 [.paymentUpdate p1, .paymentUpdate p2])
            else
              let newSenderBalance := sender.balance.valueCents - p1.amount.valueCents
              let newReceiverBalance := receiver.balance.valueCents + p1.amount.valueCents
              match Amount.createCents newSenderBalance with
              | .error m => (.error (.validation m), w1, [.paymentUpdate p1])
              | .ok senderAmount =>
                match Amount.createCents newReceiverBalance with
                | .error m => (.error (.validation m), w1, [.paymentUpdate p1])
                | .ok receiverAmount =>
                  let w2 : World := { w1 with users := setBalance w1.users sender.id senderAmount }
                  let w3 : World := { w2 with users := setBalance w2.users receiver.id receiverAmount }
                  match p1.complete with
                  | .error e =>
                    (.error (.domain e), w3,
                     [.paymentUpdate p1, .balanceUpdate sender.id senderAmount,
                      .balanceUpdate receiver.id receiverAmount])
                  | .ok p2 =>
                    (.ok { id := p2.id, status := p2.status, processedAt := p2.processedAt,
                           message := "Payment completed successfully. Transferred "
                             ++ p1.amount.toFormattedString ++ " from "
                             ++ sender.email ++ " to " ++ receiver.email,
                           senderNewBalance := some senderAmount.toFormattedString,
                           receiverNewBalance := some receiverAmount.toFormattedString },
                     { w3 with payments := setKey w3.payments p2.id p2 },
                     [.paymentUpdate p1, .balanceUpdate sender.id senderAmount,
                      .balanceUpdate receiver.id receiverAmount, .paymentUpdate p2])

/-- `RefundPaymentResponse` from `refundPayment.ts`. -/
structure RefundPaymentResponse where
  id : String
  status : PaymentStatus
  refundedAmount : String
  message : String
  senderNewBalance : String
  receiverNewBalance : String
deriving DecidableEq, Repr

/-- `RefundPaymentUseCase.execute` from `refundPayment.ts`: validate the id;
load the payment (`Payment not found` if absent); `refund()` it in memory
(throws unless COMPLETED — nothing persisted on failure); load the original
sender and receiver (throwing `NotFound` when missing); abort with the
insufficient-funds error when the receiver's balance is below the amount;
build the reversed balances through `Amount.create`; persist the sender's
balance, then the receiver's, then the REFUNDED payment; return the
confirmation. -/
def refundPaymentExecute (w : World) (transactionId : String) :
    Except UCError RefundPaymentResponse × World × List Event :=
  match TransactionId.create transactionId with
  | .error m => (.error (.validation m), w, [])
  | .ok tid =>
    match lookupKey w.payments tid with
    | none => (.error (.notFound "Payment not found"), w, [])
    | some payment =>
      match payment.refund with
      | .error e => (.error (.domain e), w, [])
      | .ok p1 =>
        match lookupKey w.users p1.fromUserId with
        | none => (.error (.notFound "Original sender user not found"), w, [])
        | some originalSender =>
          match lookupKey w.users p1.toUserId with
          | none => (.error (.notFound "Original receiver user not found"), w, [])
          | some originalReceiver =>
            if originalReceiver.balance.valueCents < p1.amount.valueCents then
              (.error (.insufficientFunds
                 ("Refund failed: Receiver has insufficient balance. Required: "
                   ++ p1.amount.toFormattedString ++ ", Available: "
                   ++ originalReceiver.balance.toFormattedString)), w, [])
            else
              let newSenderBalance := originalSender.balance.valueCents + p1.amount.valueCents
              let newReceiverBalance := originalReceiver.balance.valueCents - p1.amount.valueCents
              match Amount.createCents newSenderBalance with
              | .error m => (.error (.validation m), w, [])
              | .ok senderAmount =>
                match Amount.createCents newReceiverBalance with
                | .error m => (.error (.validation m), w, [])
                | .ok receiverAmount =>
                  let w1 : World := { w with users := setBalance w.users originalSender.id senderAmount }
                  let w2 : World := { w1 with users := setBalance w1.users originalReceiver.id receiverAmount }
                  (.ok { id := p1.id, status := p1.status,
                         refundedAmount := p1.amount.toFormattedString,
                         message := "Payment refunded successfully. Returned "
                           ++ p1.amount.toFormattedString ++ " from "
                           ++ originalReceiver.email ++ " to " ++ originalSender.email,
                         senderNewBalance := senderAmount.toFormattedString,
                         receiverNewBalance := receiverAmount.toFormattedString },
                   { w2 with payments := setKey w2.payments p1.id p1 },
                   [.balanceUpdate originalSender.id senderAmount,
                    .balanceUpdate originalReceiver.id receiverAmount,
                    .paymentUpdate p1])

/-! ### Store lemmas -/

theorem lookupKey_setKey_self {α : Type} (l : List (String × α)) (k : String) (v : α) :
    lookupKey (setKey l k v) k = some v := by
  induction l with
  | nil => simp [setKey, lookupKey]
  | cons hd tl ih =>
    obtain ⟨a, b⟩ := hd
    by_cases h : a = k
    · simp [setKey, lookupKey, h]
    · simp [setKey, lookupKey, h, ih]

theorem lookupKey_setKey_ne {α : Type} (l : List (String × α)) {k k' : String} (v : α)
    (h : k' ≠ k) : lookupKey (setKey l k v) k' = lookupKey l k' := by
  have h' : ¬ k = k' := fun hc => h hc.symm
  induction l with
  | nil => simp [setKey, lookupKey, h']
  | cons hd tl ih =>
    obtain ⟨a, b⟩ := hd
    by_cases ha : a = k
    · subst ha
      simp [setKey, lookupKey, h']
    · simp only [setKey, if_neg ha, lookupKey]
      by_cases ha' : a = k'
      · simp [ha']
      · simp [ha', ih]

theorem lookupKey_setBalance_self (l : List (String × UserAcct)) (uid : String) (a : Amount) :
    lookupKey (setBalance l uid a) uid
      = (lookupKey l uid).map (fun u => { u with balance := a }) := by
  induction l with
  | nil => simp [setBalance, lookupKey]
  | cons hd tl ih =>
    obtain ⟨k, u⟩ := hd
    by_cases h : k = uid
    · simp [setBalance, lookupKey, h]
    · simp [setBalance, lookupKey, h, ih]

theorem lookupKey_setBalance_ne (l : List (String × UserAcct)) {key uid : String} (a : Amount)
    (h : key ≠ uid) : lookupKey (setBalance l uid a) key = lookupKey l key := by
  have h' : ¬ uid = key := fun hc => h hc.symm
  induction l with
  | nil => simp [setBalance, lookupKey]
  | cons hd tl ih =>
    obtain ⟨k, u⟩ := hd
    by_cases hk : k = uid
    · subst hk
      simp [setBalance, lookupKey, h']
    · simp only [setBalance, if_neg hk, lookupKey]
      by_cases hk' : k = key
      · simp [hk']
      · simp [hk', ih]

theorem setBalance_setBalance_self (l : List (String × UserAcct)) (uid : String)
    (a b : Amount) : setBalance (setBalance l uid a) uid b = setBalance l uid b := by
  induction l with
  | nil => simp [setBalance]
  | cons hd tl ih =>
    obtain ⟨k, u⟩ := hd
    by_cases h : k = uid
    · simp [setBalance, h]
    · simp [setBalance, h, ih]

/-! ### Characterization of Process runs -/

/-- The payment as `process()` leaves it. -/
def asProcessing (payment : Payment) (now : Nat) : Payment :=
  { payment with status := .PROCESSING, processedAt := some now }

/-- The payment as `complete()` leaves it after a `process()` at `now`. -/
def asCompleted (payment : Payment) (now : Nat) : Payment :=
  { payment with status := .COMPLETED, processedAt := some now }

/-- The payment as `fail(reason)` leaves it after a `process()` at `now`. -/
def asFailed (payment : Payment) (now : Nat) (reason : String) : Payment :=
  { payment with status := .FAILED, processedAt := some now,
                 failureReason := some reason }

@[simp] theorem asProcessing_id (p : Payment) (n : Nat) : (asProcessing p n).id = p.id := rfl

@[simp] theorem asProcessing_fromUserId (p : Payment) (n : Nat) :
    (asProcessing p n).fromUserId = p.fromUserId := rfl

@[simp] theorem asProcessing_toUserId (p : Payment) (n : Nat) :
    (asProcessing p n).toUserId = p.toUserId := rfl

@[simp] theorem asProcessing_amount (p : Payment) (n : Nat) :
    (asProcessing p n).amount = p.amount := rfl

@[simp] theorem asProcessing_status (p : Payment) (n : Nat) :
    (asProcessing p n).status = .PROCESSING := rfl

@[simp] theorem asProcessing_processedAt (p : Payment) (n : Nat) :
    (asProcessing p n).processedAt = some n := rfl

@[simp] theorem asCompleted_id (p : Payment) (n : Nat) : (asCompleted p n).id = p.id := rfl

@[simp] theorem asCompleted_status (p : Payment) (n : Nat) :
    (asCompleted p n).status = .COMPLETED := rfl

@[simp] theorem asCompleted_processedAt (p : Payment) (n : Nat) :
    (asCompleted p n).processedAt = some n := rfl

@[simp] theorem asCompleted_fromUserId (p : Payment) (n : Nat) :
    (asCompleted p n).fromUserId = p.fromUserId := rfl

@[simp] theorem asCompleted_toUserId (p : Payment) (n : Nat) :
    (asCompleted p n).toUserId = p.toUserId := rfl

@[simp] theorem asCompleted_amount (p : Payment) (n : Nat) :
    (asCompleted p n).amount = p.amount := rfl

@[simp] theorem asFailed_id (p : Payment) (n : Nat) (r : String) :
    (asFailed p n r).id = p.id := rfl

@[simp] theorem asFailed_status (p : Payment) (n : Nat) (r : String) :
    (asFailed p n r).status = .FAILED := rfl

@[simp] theorem asFailed_processedAt (p : Payment) (n : Nat) (r : String) :
    (asFailed p n r).processedAt = some n := rfl

@[simp] theorem asFailed_failureReason (p : Payment) (n : Nat) (r : String) :
    (asFailed p n r).failureReason = some r := rfl

/-- Forward run of the Process success path: when the id is valid, the
payment exists and is PENDING, both users exist, the sender's balance is
sufficient and both new balances pass `Amount.create`, the use case returns
the success response, persists PROCESSING then both balances then COMPLETED,
in that order. -/
theorem processPaymentExecute_success_run
    (w : World) (now : Nat) (tidStr tid : String) (payment : Payment)
    (sender receiver : UserAcct) (sa ra : Amount)
    (h1 : TransactionId.create tidStr = .ok tid)
    (h2 : lookupKey w.payments tid = some payment)
    (h3 : payment.status = .PENDING)
    (h4 : lookupKey w.users payment.fromUserId = some sender)
    (h5 : lookupKey w.users payment.toUserId = some receiver)
    (h6 : ¬ sender.balance.valueCents < payment.amount.valueCents)
    (h7 : Amount.createCents (sender.balance.valueCents - payment.amount.valueCents) = .ok sa)
    (h8 : Amount.createCents (receiver.balance.valueCents + payment.amount.valueCents) = .ok ra) :
    processPaymentExecute w now tidStr =
      (.ok { id := payment.id, status := .COMPLETED, processedAt := some now,
             message := "Payment completed successfully. Transferred "
               ++ payment.amount.toFormattedString ++ " from "
               ++ sender.email ++ " to " ++ receiver.email,
             senderNewBalance := some sa.toFormattedString,
             receiverNewBalance := some ra.toFormattedString },
       { payments := setKey (setKey w.payments payment.id (asProcessing payment now))
           payment.id (asCompleted payment now),
         users := setBalance (setBalance w.users sender.id sa) receiver.id ra },
       [.paymentUpdate (asProcessing payment now),
        .balanceUpdate sender.id sa, .balanceUpdate receiver.id ra,
        .paymentUpdate (asCompleted payment now)]) := by
  have hproc : payment.process now = .ok (asProcessing payment now) := by
    simp [Payment.process, h3, asProcessing]
  have hcomp : (asProcessing payment now).complete = .ok (asCompleted payment now) := by
    simp [Payment.complete, asProcessing, asCompleted]
  simp only [processPaymentExecute, h1, h2, hproc, hcomp, asProcessing_id,
    asProcessing_fromUserId, asProcessing_toUserId, asProcessing_amount,
    asProcessing_status, asProcessing_processedAt, asCompleted_id,
    asCompleted_status, asCompleted_processedAt, h4, h5, h6, if_false, h7, h8]

/-- Inversion of the Process success path: a run that returns an `.ok`
response with status COMPLETED must have taken the full transfer path, and
the final world, trace and response are exactly those of
`processPaymentExecute_success_run`. -/
theorem processPaymentExecute_completed_inv
    (w : World) (now : Nat) (tidStr : String) (resp : ProcessPaymentResponse)
    (w' : World) (tr : List Event)
    (h : processPaymentExecute w now tidStr = (.ok resp, w', tr))
    (hst : resp.status = .COMPLETED) :
    ∃ tid payment sender receiver sa ra,
      TransactionId.create tidStr = .ok tid ∧
      lookupKey w.payments tid = some payment ∧
      payment.status = .PENDING ∧
      lookupKey w.users payment.fromUserId = some sender ∧
      lookupKey w.users payment.toUserId = some receiver ∧
      ¬ sender.balance.valueCents < payment.amount.valueCents ∧
      Amount.createCents (sender.balance.valueCents - payment.amount.valueCents) = .ok sa ∧
      Amount.createCents (receiver.balance.valueCents + payment.amount.valueCents) = .ok ra ∧
      w' = { payments := setKey (setKey w.payments payment.id (asProcessing payment now))
               payment.id (asCompleted payment now),
             users := setBalance (setBalance w.users sender.id sa) receiver.id ra } ∧
      tr = [.paymentUpdate (asProcessing payment now),
            .balanceUpdate sender.id sa, .balanceUpdate receiver.id ra,
            .paymentUpdate (asCompleted payment now)] ∧
      resp = { id := payment.id, status := .COMPLETED, processedAt := some now,
               message := "Payment completed successfully. Transferred "
                 ++ payment.amount.toFormattedString ++ " from "
                 ++ sender.email ++ " to " ++ receiver.email,
               senderNewBalance := some sa.toFormattedString,
               receiverNewBalance := some ra.toFormattedString } := by
  unfold processPaymentExecute at h
  split at h
  · simp at h
  rename_i tid htid
  split at h
  · simp at h
  rename_i payment hpay
  split at h
  · simp at h
  rename_i p1 hp1
  unfold Payment.process at hp1
  split at hp1
  · rename_i hpending
    simp only [Except.ok.injEq] at hp1
    subst hp1
    split at h
    · -- sender missing: the failed response has status FAILED
      split at h
      · simp at h
      rename_i p2 hp2
      unfold Payment.fail at hp2
      split at hp2
      · simp only [Except.ok.injEq] at hp2
        subst hp2
        simp only [Prod.mk.injEq, Except.ok.injEq] at h
        rw [← h.1] at hst
        simp at hst
      · simp at hp2
    rename_i sender hsender
    split at h
    · -- receiver missing
      split at h
      · simp at h
      rename_i p2 hp2
      unfold Payment.fail at hp2
      split at hp2
      · simp only [Except.ok.injEq] at hp2
        subst hp2
        simp only [Prod.mk.injEq, Except.ok.injEq] at h
        rw [← h.1] at hst
        simp at hst
      · simp at hp2
    rename_i receiver hreceiver
    split at h
    · -- insufficient balance
      split at h
      · simp at h
      rename_i p2 hp2
      unfold Payment.fail at hp2
      split at hp2
      · simp only [Except.ok.injEq] at hp2
        subst hp2
        simp only [Prod.mk.injEq, Except.ok.injEq] at h
        rw [← h.1] at hst
        simp at hst
      · simp at hp2
    rename_i hsuff
    split at h
    · -- complete() cannot fail from PROCESSING
      rename_i e hcomp
      unfold Payment.complete at hcomp
      simp at hcomp
    rename_i p2 hp2
    unfold Payment.complete at hp2
    simp only [Except.ok.injEq, reduceIte] at hp2
    subst hp2
    dsimp only at h
    split at h
    · simp at h
    rename_i sa hsa
    split at h
    · simp at h
    rename_i ra hra
    simp only [Prod.mk.injEq, Except.ok.injEq] at h
    obtain ⟨hresp, hw', htr⟩ := h
    refine ⟨tid, payment, sender, receiver, sa, ra, htid, hpay, hpending,
      hsender, hreceiver, hsuff, hsa, hra, ?_, ?_, ?_⟩
    · exact hw'.symm
    · exact htr.symm
    · exact hresp.symm
  · simp at hp1

/-! ### Characterization of Refund runs -/

/-- The payment as `refund()` leaves it. -/
def asRefunded (payment : Payment) : Payment :=
  { payment with status := .REFUNDED }

@[simp] theorem asRefunded_id (p : Payment) : (asRefunded p).id = p.id := rfl

@[simp] theorem asRefunded_fromUserId (p : Payment) :
    (asRefunded p).fromUserId = p.fromUserId := rfl

@[simp] theorem asRefunded_toUserId (p : Payment) :
    (asRefunded p).toUserId = p.toUserId := rfl

@[simp] theorem asRefunded_amount (p : Payment) : (asRefunded p).amount = p.amount := rfl

@[simp] theorem asRefunded_status (p : Payment) : (asRefunded p).status = .REFUNDED := rfl

/-- Inversion of the Refund success path: any `.ok` result of
`refundPaymentExecute` must come from the full reversal path — a COMPLETED
payment, both users present, the receiver's balance sufficient, both
reversed balances accepted by `Amount.create` — and the final world, trace
and response are the reversal's. -/
theorem refundPaymentExecute_ok_inv
    (w : World) (tidStr : String) (resp : RefundPaymentResponse)
    (w' : World) (tr : List Event)
    (h : refundPaymentExecute w tidStr = (.ok resp, w', tr)) :
    ∃ tid payment sender receiver sa ra,
      TransactionId.create tidStr = .ok tid ∧
      lookupKey w.payments tid = some payment ∧
      payment.status = .COMPLETED ∧
      lookupKey w.users payment.fromUserId = some sender ∧
      lookupKey w.users payment.toUserId = some receiver ∧
      ¬ receiver.balance.valueCents < payment.amount.valueCents ∧
      Amount.createCents (sender.balance.valueCents + payment.amount.valueCents) = .ok sa ∧
      Amount.createCents (receiver.balance.valueCents - payment.amount.valueCents) = .ok ra ∧
      w' = { payments := setKey w.payments payment.id (asRefunded payment),
             users := setBalance (setBalance w.users sender.id sa) receiver.id ra } ∧
      tr = [.balanceUpdate sender.id sa, .balanceUpdate receiver.id ra,
            .paymentUpdate (asRefunded payment)] ∧
      resp = { id := payment.id, status := .REFUNDED,
               refundedAmount := payment.amount.toFormattedString,
               message := "Payment refunded successfully. Returned "
                 ++ payment.amount.toFormattedString ++ " from "
                 ++ receiver.email ++ " to " ++ sender.email,
               senderNewBalance := sa.toFormattedString,
               receiverNewBalance := ra.toFormattedString } := by
  unfold refundPaymentExecute at h
  split at h
  · simp at h
  rename_i tid htid
  split at h
  · simp at h
  rename_i payment hpay
  split at h
  · simp at h
  rename_i p1 hp1
  unfold Payment.refund at hp1
  split at hp1
  · rename_i hcompleted
    simp only [Except.ok.injEq] at hp1
    subst hp1
    split at h
    · simp at h
    rename_i sender hsender
    split at h
    · simp at h
    rename_i receiver hreceiver
    split at h
    · simp at h
    rename_i hsuff
    dsimp only at h
    split at h
    · simp at h
    rename_i sa hsa
    split at h
    · simp at h
    rename_i ra hra
    simp only [Prod.mk.injEq, Except.ok.injEq] at h
    obtain ⟨hresp, hw', htr⟩ := h
    refine ⟨tid, payment, sender, receiver, sa, ra, htid, hpay, hcompleted,
      hsender, hreceiver, hsuff, hsa, hra, hw'.symm, htr.symm, hresp.symm⟩
  · simp at hp1

/-! ### Auxiliary facts and sample data -/

theorem Amount.createCents_ok_val {i : Int} {a : Amount}
    (h : Amount.createCents i = .ok a) :
    a.valueCents = i ∧ 0 ≤ i ∧ i ≤ 999999999 := by
  unfold Amount.createCents at h
  split_ifs at h with h1 h2
  simp only [Except.ok.injEq] at h
  subst h
  exact ⟨rfl, le_of_not_lt h1, le_of_not_lt h2⟩

theorem Amount.createCents_ok_of_bounds {i : Int} (h0 : 0 ≤ i) (h9 : i ≤ 999999999) :
    Amount.createCents i = .ok ⟨i⟩ := by
  unfold Amount.createCents
  rw [if_neg (not_lt.mpr h0), if_neg (not_lt.mpr h9)]

/-- A PENDING 2500-cent payment from "A" to "B". -/
def samplePayment : Payment :=
  { id := "PAY_1", fromUserId := "A", toUserId := "B", amount := ⟨2500⟩,
    currency := "USD", paymentMethod := "CREDIT_CARD ****4532",
    status := .PENDING, description := "demo", createdAt := 0,
    processedAt := none, failureReason := none }

/-- Scenario-B world: "A" holds 10000 cents, "B" holds 5000 cents. -/
def sampleWorld : World :=
  { payments := [("PAY_1", samplePayment)],
    users := [("A", ⟨"A", "alice@payments.com", ⟨10000⟩⟩),
              ("B", ⟨"B", "bob@payments.com", ⟨5000⟩⟩)] }

/-- Scenario-C world: "A" holds only 1000 cents. -/
def poorWorld : World :=
  { payments := [("PAY_1", samplePayment)],
    users := [("A", ⟨"A", "alice@payments.com", ⟨1000⟩⟩),
              ("B", ⟨"B", "bob@payments.com", ⟨5000⟩⟩)] }

/-- The sample payment sent from "A" to itself. -/
def selfPayment : Payment := { samplePayment with toUserId := "A" }

/-- Self-payment world: one account "A" with 10000 cents. -/
def selfWorld : World :=
  { payments := [("PAY_1", selfPayment)],
    users := [("A", ⟨"A", "alice@payments.com", ⟨10000⟩⟩)] }

/-! ### The claims -/

/-- C8: for every number input, `Amount.create` succeeds exactly when the
input is an integer in [0, 999999999] (rejecting non-integers, negatives
and over-bound values), and on success the stored cents equal the input
exactly. -/
theorem claim_C8_amount_create (q : ℚ) :
    ((∃ a, Amount.create q = .ok a) ↔ q.den = 1 ∧ 0 ≤ q ∧ q ≤ 999999999)
    ∧ ∀ a, Amount.create q = .ok a → (a.valueCents : ℚ) = q := by
  constructor
  · constructor
    · rintro ⟨a, ha⟩
      unfold Amount.create at ha
      split_ifs at ha with h1 h2 h3
      exact ⟨not_not.mp h1, le_of_not_lt h2, le_of_not_lt h3⟩
    · rintro ⟨hden, h0, h9⟩
      unfold Amount.create
      rw [if_neg (by simp [hden]), if_neg (not_lt.mpr h0), if_neg (not_lt.mpr h9)]
      exact ⟨⟨q.num⟩, rfl⟩
  · intro a ha
    unfold Amount.create at ha
    split_ifs at ha with h1 h2 h3
    simp only [Except.ok.injEq] at ha
    rw [← ha]
    exact (Rat.den_eq_one_iff q).mp (not_not.mp h1)

/-- C8 witness: 2500 is accepted. -/
theorem claim_C8_amount_create_witness :
    ((2500 : ℚ).den = 1 ∧ (0 : ℚ) ≤ 2500 ∧ (2500 : ℚ) ≤ 999999999)
    ∧ ∃ a, Amount.create 2500 = .ok a :=
  ⟨⟨rfl, by norm_num, by norm_num⟩,
   (claim_C8_amount_create 2500).1.mpr ⟨rfl, by norm_num, by norm_num⟩⟩

/-- C2: each transition succeeds exactly from its listed source state,
mutating only the fields the state machine records (status, the processing
timestamp for `process()`, the failure reason for `fail()`); from any other
state it fails with a `DomainRuleViolation`, producing no updated
aggregate. -/
theorem claim_C2_state_machine (p : Payment) (now : Nat) (reason : String) :
    (p.status = .PENDING →
       p.process now = .ok { p with status := .PROCESSING, processedAt := some now })
    ∧ (p.status ≠ .PENDING → ∃ m, p.process now = .error (.domainRuleViolation m))
    ∧ (p.status = .PROCESSING → p.complete = .ok { p with status := .COMPLETED })
    ∧ (p.status ≠ .PROCESSING → ∃ m, p.complete = .error (.domainRuleViolation m))
    ∧ (p.status = .PROCESSING →
       p.fail reason = .ok { p with status := .FAILED, failureReason := some reason })
    ∧ (p.status ≠ .PROCESSING → ∃ m, p.fail reason = .error (.domainRuleViolation m))
    ∧ (p.status = .COMPLETED → p.refund = .ok { p with status := .REFUNDED })
    ∧ (p.status ≠ .COMPLETED → ∃ m, p.refund = .error (.domainRuleViolation m)) := by
  refine ⟨?_, ?_, ?_, ?_, ?_, ?_, ?_, ?_⟩ <;> intro h <;>
    simp [Payment.process, Payment.complete, Payment.fail, Payment.refund, h]

/-- C2 witness: the sample PENDING payment can be processed, and once
PROCESSING it can no longer be processed again. -/
theorem claim_C2_state_machine_witness :
    (samplePayment.status = .PENDING ∧
       samplePayment.process 7 =
         .ok { samplePayment with status := .PROCESSING, processedAt := some 7 })
    ∧ ((asProcessing samplePayment 7).status ≠ .PENDING ∧
       ∃ m, (asProcessing samplePayment 7).process 7 = .error (.domainRuleViolation m)) :=
  ⟨⟨rfl, (claim_C2_state_machine samplePayment 7 "r").1 rfl⟩,
   ⟨by decide, (claim_C2_state_machine (asProcessing samplePayment 7) 7 "r").2.1 (by decide)⟩⟩

/-- C6: when both accounts exist and the sender's balance is below the
amount, Process fails the payment with reason "Insufficient balance",
persists PROCESSING then FAILED, returns the failure message carrying the
required and available amounts as decimal strings, and touches no account
balance (the user store is returned unchanged). -/
theorem claim_C6_insufficient_balance
    (w : World) (now : Nat) (tidStr tid : String) (payment : Payment)
    (sender receiver : UserAcct)
    (h1 : TransactionId.create tidStr = .ok tid)
    (h2 : lookupKey w.payments tid = some payment)
    (h3 : payment.status = .PENDING)
    (h4 : lookupKey w.users payment.fromUserId = some sender)
    (h5 : lookupKey w.users payment.toUserId = some receiver)
    (h6 : sender.balance.valueCents < payment.amount.valueCents) :
    processPaymentExecute w now tidStr =
      (.ok { id := payment.id, status := .FAILED, processedAt := some now,
             message := "Payment failed: Insufficient balance. Required: "
               ++ payment.amount.toFormattedString ++ ", Available: "
               ++ sender.balance.toFormattedString,
             senderNewBalance := none, receiverNewBalance := none },
       { payments := setKey (setKey w.payments payment.id (asProcessing payment now))
           payment.id (asFailed payment now "Insufficient balance"),
         users := w.users },
       [.paymentUpdate (asProcessing payment now),
        .paymentUpdate (asFailed payment now "Insufficient balance")]) := by
  have hproc : payment.process now = .ok (asProcessing payment now) := by
    simp [Payment.process, h3, asProcessing]
  have hfail : (asProcessing payment now).fail "Insufficient balance"
      = .ok (asFailed payment now "Insufficient balance") := by
    simp [Payment.fail, asProcessing, asFailed]
  simp only [processPaymentExecute, h1, h2, hproc, hfail, asProcessing_id,
    asProcessing_fromUserId, asProcessing_toUserId, asProcessing_amount,
    asProcessing_status, asProcessing_processedAt, asFailed_id, asFailed_status,
    asFailed_processedAt, h4, h5, h6, if_true]

/-- C6 witness: Scenario C — "A" holds 1000 cents, the 2500-cent payment
fails with the formatted message, balances untouched. -/
theorem claim_C6_insufficient_balance_witness :
    (TransactionId.create "PAY_1" = .ok "PAY_1"
     ∧ lookupKey poorWorld.payments "PAY_1" = some samplePayment
     ∧ samplePayment.status = .PENDING
     ∧ lookupKey poorWorld.users samplePayment.fromUserId
         = some ⟨"A", "alice@payments.com", ⟨1000⟩⟩
     ∧ lookupKey poorWorld.users samplePayment.toUserId
         = some ⟨"B", "bob@payments.com", ⟨5000⟩⟩
     ∧ ((1000 : Int) < 2500))
    ∧ processPaymentExecute poorWorld 7 "PAY_1" =
      (.ok { id := samplePayment.id, status := .FAILED, processedAt := some 7,
             message := "Payment failed: Insufficient balance. Required: "
               ++ samplePayment.amount.toFormattedString ++ ", Available: "
               ++ (⟨1000⟩ : Amount).toFormattedString,
             senderNewBalance := none, receiverNewBalance := none },
       { payments := setKey (setKey poorWorld.payments samplePayment.id
             (asProcessing samplePayment 7))
           samplePayment.id (asFailed samplePayment 7 "Insufficient balance"),
         users := poorWorld.users },
       [.paymentUpdate (asProcessing samplePayment 7),
        .paymentUpdate (asFailed samplePayment 7 "Insufficient balance")]) :=
  ⟨⟨rfl, by decide, rfl, by decide, by decide, by decide⟩,
   claim_C6_insufficient_balance poorWorld 7 "PAY_1" "PAY_1" samplePayment
     ⟨"A", "alice@payments.com", ⟨1000⟩⟩ ⟨"B", "bob@payments.com", ⟨5000⟩⟩
     rfl (by decide) rfl (by decide) (by decide) (by decide)⟩

/-- C7: a Refund of a COMPLETED payment whose receiver cannot cover the
clawback aborts with the insufficient-funds condition and mutates nothing:
the returned world is the input world (so the persisted payment is still
the COMPLETED one) and the write trace is empty. -/
theorem claim_C7_refund_insufficient
    (w : World) (tidStr tid : String) (payment : Payment)
    (sender receiver : UserAcct)
    (h1 : TransactionId.create tidStr = .ok tid)
    (h2 : lookupKey w.payments tid = some payment)
    (h3 : payment.status = .COMPLETED)
    (h4 : lookupKey w.users payment.fromUserId = some sender)
    (h5 : lookupKey w.users payment.toUserId = some receiver)
    (h6 : receiver.balance.valueCents < payment.amount.valueCents) :
    refundPaymentExecute w tidStr =
      (.error (.insufficientFunds
         ("Refund failed: Receiver has insufficient balance. Required: "
           ++ payment.amount.toFormattedString ++ ", Available: "
           ++ receiver.balance.toFormattedString)), w, []) := by
  have hrefund : payment.refund = .ok (asRefunded payment) := by
    simp [Payment.refund, h3, asRefunded]
  simp only [refundPaymentExecute, h1, h2, hrefund, asRefunded_id,
    asRefunded_fromUserId, asRefunded_toUserId, asRefunded_amount,
    asRefunded_status, h4, h5, h6, if_true]

/-- C7 witness: a COMPLETED 2500-cent payment whose receiver only holds
1000 cents; the refund aborts and the world is unchanged. -/
theorem claim_C7_refund_insufficient_witness :
    (TransactionId.create "PAY_1" = .ok "PAY_1"
     ∧ ({ samplePayment with status := .COMPLETED } : Payment).status = .COMPLETED
     ∧ ((1000 : Int) < 2500))
    ∧ refundPaymentExecute
        { payments := [("PAY_1", { samplePayment with status := .COMPLETED })],
          users := [("A", ⟨"A", "alice@payments.com", ⟨10000⟩⟩),
                    ("B", ⟨"B", "bob@payments.com", ⟨1000⟩⟩)] } "PAY_1" =
      (.error (.insufficientFunds
         ("Refund failed: Receiver has insufficient balance. Required: "
           ++ ({ samplePayment with status := .COMPLETED } : Payment).amount.toFormattedString
           ++ ", Available: " ++ (⟨1000⟩ : Amount).toFormattedString)),
       { payments := [("PAY_1", { samplePayment with status := .COMPLETED })],
         users := [("A", ⟨"A", "alice@payments.com", ⟨10000⟩⟩),
                   ("B", ⟨"B", "bob@payments.com", ⟨1000⟩⟩)] }, []) :=
  ⟨⟨rfl, rfl, by decide⟩,
   claim_C7_refund_insufficient
     { payments := [("PAY_1", { samplePayment with status := .COMPLETED })],
       users := [("A", ⟨"A", "alice@payments.com", ⟨10000⟩⟩),
                 ("B", ⟨"B", "bob@payments.com", ⟨1000⟩⟩)] }
     "PAY_1" "PAY_1" { samplePayment with status := .COMPLETED }
     ⟨"A", "alice@payments.com", ⟨10000⟩⟩ ⟨"B", "bob@payments.com", ⟨1000⟩⟩
     rfl (by decide) rfl (by decide) (by decide) (by decide)⟩

/-- C5: the persisted effects of every Process run come in one of four
shapes, each respecting the documented order — nothing is written, only the
PROCESSING checkpoint is written, the checkpoint is followed by a FAILED
status write, or the checkpoint is followed by the sender's balance write,
then the receiver's balance write, then the COMPLETED status write.  In
particular PROCESSING always precedes any balance write, the sender's write
precedes the receiver's, and COMPLETED follows both. -/
theorem claim_C5_event_order (w : World) (now : Nat) (tidStr : String) :
    (processPaymentExecute w now tidStr).2.2 = [] ∨
    (∃ p1, p1.status = .PROCESSING ∧
       (processPaymentExecute w now tidStr).2.2 = [.paymentUpdate p1]) ∨
    (∃ p1 p2, p1.status = .PROCESSING ∧ p2.status = .FAILED ∧
       (processPaymentExecute w now tidStr).2.2
         = [.paymentUpdate p1, .paymentUpdate p2]) ∨
    (∃ tid payment sender receiver sa ra,
       TransactionId.create tidStr = .ok tid ∧
       lookupKey w.payments tid = some payment ∧
       lookupKey w.users payment.fromUserId = some sender ∧
       lookupKey w.users payment.toUserId = some receiver ∧
       (processPaymentExecute w now tidStr).2.2 =
         [.paymentUpdate (asProcessing payment now),
          .balanceUpdate sender.id sa, .balanceUpdate receiver.id ra,
          .paymentUpdate (asCompleted payment now)]) := by
  cases h1 : TransactionId.create tidStr with
  | error m =>
    left
    simp [processPaymentExecute, h1]
  | ok tid =>
    cases h2 : lookupKey w.payments tid with
    | none =>
      left
      simp [processPaymentExecute, h1, h2]
    | some payment =>
      by_cases h3 : payment.status = .PENDING
      · have hproc : payment.process now = .ok (asProcessing payment now) := by
          simp [Payment.process, h3, asProcessing]
        cases h4 : lookupKey w.users payment.fromUserId with
        | none =>
          have hfail : (asProcessing payment now).fail "Sender user not found"
              = .ok (asFailed payment now "Sender user not found") := by
            simp [Payment.fail, asProcessing, asFailed]
          refine Or.inr (Or.inr (Or.inl ⟨asProcessing payment now,
            asFailed payment now "Sender user not found", rfl, rfl, ?_⟩))
          simp only [processPaymentExecute, h1, h2, hproc, asProcessing_fromUserId,
            h4, hfail]
        | some sender =>
          cases h5 : lookupKey w.users payment.toUserId with
          | none =>
            have hfail : (asProcessing payment now).fail "Receiver user not found"
                = .ok (asFailed payment now "Receiver user not found") := by
              simp [Payment.fail, asProcessing, asFailed]
            refine Or.inr (Or.inr (Or.inl ⟨asProcessing payment now,
              asFailed payment now "Receiver user not found", rfl, rfl, ?_⟩))
            simp only [processPaymentExecute, h1, h2, hproc, asProcessing_fromUserId,
              asProcessing_toUserId, h4, h5, hfail]
          | some receiver =>
            by_cases h6 : sender.balance.valueCents < payment.amount.valueCents
            · have hfail : (asProcessing payment now).fail "Insufficient balance"
                  = .ok (asFailed payment now "Insufficient balance") := by
                simp [Payment.fail, asProcessing, asFailed]
              refine Or.inr (Or.inr (Or.inl ⟨asProcessing payment now,
                asFailed payment now "Insufficient balance", rfl, rfl, ?_⟩))
              simp only [processPaymentExecute, h1, h2, hproc, asProcessing_fromUserId,
                asProcessing_toUserId, asProcessing_amount, h4, h5, h6, if_true, hfail]
            · cases h7 : Amount.createCents
                  (sender.balance.valueCents - payment.amount.valueCents) with
              | error m =>
                refine Or.inr (Or.inl ⟨asProcessing payment now, rfl, ?_⟩)
                simp only [processPaymentExecute, h1, h2, hproc, asProcessing_fromUserId,
                  asProcessing_toUserId, asProcessing_amount, h4, h5, h6, if_false, h7]
              | ok sa =>
                cases h8 : Amount.createCents
                    (receiver.balance.valueCents + payment.amount.valueCents) with
                | error m =>
                  refine Or.inr (Or.inl ⟨asProcessing payment now, rfl, ?_⟩)
                  simp only [processPaymentExecute, h1, h2, hproc, asProcessing_fromUserId,
                    asProcessing_toUserId, asProcessing_amount, h4, h5, h6, if_false, h7, h8]
                | ok ra =>
                  refine Or.inr (Or.inr (Or.inr
                    ⟨tid, payment, sender, receiver, sa, ra, rfl, h2, h4, h5, ?_⟩))
                  rw [processPaymentExecute_success_run w now tidStr tid payment
                    sender receiver sa ra h1 h2 h3 h4 h5 h6 h7 h8]
      · have hproc : payment.process now
            = .error (.domainRuleViolation
                "Payment can only be processed from PENDING status") := by
          simp [Payment.process, h3]
        left
        simp [processPaymentExecute, h1, h2, hproc]

/-- C1 counterexample: the accepted self-payment (10000-cent balance,
2500-cent amount) returns COMPLETED, yet the sender's persisted balance
afterwards is 12500, not 10000 − 2500: the claim's sender equation fails. -/
theorem claim_C1_counterexample :
    selfPayment.fromUserId = selfPayment.toUserId
    ∧ (lookupKey selfWorld.users selfPayment.fromUserId).map
        (fun u => u.balance.valueCents) = some 10000
    ∧ selfPayment.amount.valueCents = 2500
    ∧ (∃ resp, (processPaymentExecute selfWorld 7 "PAY_1").1 = .ok resp
         ∧ resp.status = .COMPLETED)
    ∧ (lookupKey (processPaymentExecute selfWorld 7 "PAY_1").2.1.users
         selfPayment.fromUserId).map (fun u => u.balance.valueCents) = some 12500
    ∧ (12500 : Int) ≠ 10000 - 2500 :=
  ⟨rfl, by decide, by decide, ⟨_, rfl, rfl⟩, by decide, by decide⟩

/-- C1 (amended): for every Process call that returns a COMPLETED response
on a payment whose sender and receiver ids differ (the id-coherence of the
two stores assumed), the persisted balances are exactly the start balances
minus and plus the amount.  The amendment adds the distinctness hypothesis:
for a self-payment the receiver-side write overwrites the debit (see the
counterexample and C9). -/
theorem claim_C1_amended_balances_exact
    (w : World) (now : Nat) (tidStr tid : String)
    {resp : ProcessPaymentResponse} {w' : World} {tr : List Event}
    (payment : Payment) (sender receiver : UserAcct)
    (h : processPaymentExecute w now tidStr = (.ok resp, w', tr))
    (hst : resp.status = .COMPLETED)
    (htid : TransactionId.create tidStr = .ok tid)
    (hpay : lookupKey w.payments tid = some payment)
    (hsender : lookupKey w.users payment.fromUserId = some sender)
    (hreceiver : lookupKey w.users payment.toUserId = some receiver)
    (hsid : sender.id = payment.fromUserId)
    (hrid : receiver.id = payment.toUserId)
    (hne : payment.fromUserId ≠ payment.toUserId) :
    (lookupKey w'.users payment.fromUserId).map (fun u => u.balance.valueCents)
      = some (sender.balance.valueCents - payment.amount.valueCents)
    ∧ (lookupKey w'.users payment.toUserId).map (fun u => u.balance.valueCents)
      = some (receiver.balance.valueCents + payment.amount.valueCents) := by
  obtain ⟨tid', payment', sender', receiver', sa, ra, htid', hpay', hpend,
    hsender', hreceiver', hsuff, hsa, hra, hw', htr, hresp⟩ :=
    processPaymentExecute_completed_inv w now tidStr resp w' tr h hst
  rw [htid] at htid'
  injection htid' with htid''
  subst htid''
  rw [hpay] at hpay'
  injection hpay' with hpay''
  subst hpay''
  rw [hsender] at hsender'
  injection hsender' with hs
  subst hs
  rw [hreceiver] at hreceiver'
  injection hreceiver' with hr
  subst hr
  subst hw'
  obtain ⟨hsaval, -, -⟩ := Amount.createCents_ok_val hsa
  obtain ⟨hraval, -, -⟩ := Amount.createCents_ok_val hra
  have hner : payment.fromUserId ≠ receiver.id := by
    rw [hrid]
    exact hne
  have hnes : payment.toUserId ≠ sender.id := by
    rw [hsid]
    exact hne.symm
  have hsender2 : lookupKey w.users sender.id = some sender := by
    rw [hsid]
    exact hsender
  have hreceiver2 : lookupKey w.users receiver.id = some receiver := by
    rw [hrid]
    exact hreceiver
  have hnes2 : receiver.id ≠ sender.id := by
    rw [hrid]
    exact hnes
  constructor
  · dsimp only
    rw [lookupKey_setBalance_ne _ ra hner, ← hsid, lookupKey_setBalance_self, hsender2]
    simp [hsaval]
  · dsimp only
    rw [← hrid, lookupKey_setBalance_self, lookupKey_setBalance_ne _ sa hnes2, hreceiver2]
    simp [hraval]

/-- C1 (amended) witness: Scenario B — distinct accounts "A" and "B" end at
exactly 10000 − 2500 and 5000 + 2500. -/
theorem claim_C1_amended_balances_exact_witness :
    (lookupKey (processPaymentExecute sampleWorld 7 "PAY_1").2.1.users "A").map
        (fun u => u.balance.valueCents) = some (10000 - 2500)
    ∧ (lookupKey (processPaymentExecute sampleWorld 7 "PAY_1").2.1.users "B").map
        (fun u => u.balance.valueCents) = some (5000 + 2500) :=
  claim_C1_amended_balances_exact sampleWorld 7 "PAY_1" "PAY_1" samplePayment
    ⟨"A", "alice@payments.com", ⟨10000⟩⟩ ⟨"B", "bob@payments.com", ⟨5000⟩⟩
    rfl rfl rfl (by decide) (by decide) (by decide) rfl rfl (by decide)

/-- A self-payment whose amount is at the Amount bound. -/
def overflowSelfPayment : Payment :=
  { samplePayment with toUserId := "A", amount := ⟨999999999⟩ }

/-- World for `overflowSelfPayment`: the single account holds 999999999
cents, which covers the amount, but crediting it overflows the bound. -/
def overflowSelfWorld : World :=
  { payments := [("PAY_1", overflowSelfPayment)],
    users := [("A", ⟨"A", "alice@payments.com", ⟨999999999⟩⟩)] }

/-- C9 counterexample: a self-payment whose balance covers the amount but
whose credited balance exceeds the Amount bound does not return COMPLETED —
`Amount.create` throws and Process aborts with the validation error. -/
theorem claim_C9_counterexample :
    overflowSelfPayment.fromUserId = overflowSelfPayment.toUserId
    ∧ (lookupKey overflowSelfWorld.users overflowSelfPayment.fromUserId).map
        (fun u => u.balance.valueCents) = some 999999999
    ∧ overflowSelfPayment.amount.valueCents = 999999999
    ∧ (processPaymentExecute overflowSelfWorld 7 "PAY_1").1
        = .error (.validation "Amount exceeds maximum allowed value") :=
  ⟨rfl, by decide, by decide, rfl⟩

/-- C9 (amended): a self-payment whose single balance covers the amount
*and whose credited balance stays within the Amount bound* completes, and
the account's final persisted balance is its starting balance plus the
amount — the receiver-side write overwrites the sender-side debit, creating
money instead of conserving it. -/
theorem claim_C9_amended_self_payment
    (w : World) (now : Nat) (tidStr tid : String) (payment : Payment)
    (user : UserAcct)
    (htid : TransactionId.create tidStr = .ok tid)
    (hpay : lookupKey w.payments tid = some payment)
    (hpend : payment.status = .PENDING)
    (hself : payment.fromUserId = payment.toUserId)
    (huser : lookupKey w.users payment.fromUserId = some user)
    (hid : user.id = payment.fromUserId)
    (hamt : 0 ≤ payment.amount.valueCents)
    (hcover : payment.amount.valueCents ≤ user.balance.valueCents)
    (hbound : user.balance.valueCents + payment.amount.valueCents ≤ 999999999) :
    ∃ resp w' tr, processPaymentExecute w now tidStr = (.ok resp, w', tr)
      ∧ resp.status = .COMPLETED
      ∧ (lookupKey w'.users payment.fromUserId).map (fun u => u.balance.valueCents)
          = some (user.balance.valueCents + payment.amount.valueCents) := by
  have huser2 : lookupKey w.users payment.toUserId = some user := by
    rw [← hself]
    exact huser
  have h6 : ¬ user.balance.valueCents < payment.amount.valueCents := not_lt.mpr hcover
  have hsa : Amount.createCents (user.balance.valueCents - payment.amount.valueCents)
      = .ok ⟨user.balance.valueCents - payment.amount.valueCents⟩ :=
    Amount.createCents_ok_of_bounds (by omega) (by omega)
  have hra : Amount.createCents (user.balance.valueCents + payment.amount.valueCents)
      = .ok ⟨user.balance.valueCents + payment.amount.valueCents⟩ :=
    Amount.createCents_ok_of_bounds (by omega) hbound
  refine ⟨_, _, _,
    processPaymentExecute_success_run w now tidStr tid payment user user
      ⟨user.balance.valueCents - payment.amount.valueCents⟩
      ⟨user.balance.valueCents + payment.amount.valueCents⟩
      htid hpay hpend huser huser2 h6 hsa hra, rfl, ?_⟩
  dsimp only
  rw [setBalance_setBalance_self, ← hid, lookupKey_setBalance_self]
  have huser3 : lookupKey w.users user.id = some user := by
    rw [hid]
    exact huser
  rw [huser3]
  rfl

/-- C9 (amended) witness: the 10000-cent self-payment of 2500 cents
completes and leaves the account at 12500 cents. -/
theorem claim_C9_amended_self_payment_witness :
    ∃ resp w' tr, processPaymentExecute selfWorld 7 "PAY_1" = (.ok resp, w', tr)
      ∧ resp.status = .COMPLETED
      ∧ (lookupKey w'.users selfPayment.fromUserId).map (fun u => u.balance.valueCents)
          = some ((10000 : Int) + 2500) :=
  claim_C9_amended_self_payment selfWorld 7 "PAY_1" "PAY_1" selfPayment
    ⟨"A", "alice@payments.com", ⟨10000⟩⟩
    rfl (by decide) rfl rfl (by decide) rfl (by decide) (by decide) (by decide)

/-- World where the self-payment's account holds exactly the amount. -/
def exactSelfWorld : World :=
  { payments := [("PAY_1", selfPayment)],
    users := [("A", ⟨"A", "alice@payments.com", ⟨2500⟩⟩)] }

/-- World where the sender holds exactly the amount and the receiver sits
at the Amount bound. -/
def maxReceiverWorld : World :=
  { payments := [("PAY_1", samplePayment)],
    users := [("A", ⟨"A", "alice@payments.com", ⟨2500⟩⟩),
              ("B", ⟨"B", "bob@payments.com", ⟨999999999⟩⟩)] }

/-- C10 counterexample, two parts.  (a) A self-payment with balance equal
to the amount completes, but the sender's final balance is 5000 cents, not
0 — the claim's "final persisted balance is exactly 0" fails.  (b) With
distinct users, sender balance equal to the amount but the receiver at the
Amount bound, the transfer does not succeed: the credit overflows the bound
and Process aborts with a validation error instead of COMPLETED. -/
theorem claim_C10_counterexample :
    ((lookupKey exactSelfWorld.users selfPayment.fromUserId).map
        (fun u => u.balance.valueCents) = some 2500
     ∧ selfPayment.amount.valueCents = 2500
     ∧ (∃ resp, (processPaymentExecute exactSelfWorld 7 "PAY_1").1 = .ok resp
          ∧ resp.status = .COMPLETED)
     ∧ (lookupKey (processPaymentExecute exactSelfWorld 7 "PAY_1").2.1.users
          selfPayment.fromUserId).map (fun u => u.balance.valueCents) = some 5000
     ∧ (5000 : Int) ≠ 0)
    ∧ ((lookupKey maxReceiverWorld.users samplePayment.fromUserId).map
          (fun u => u.balance.valueCents) = some 2500
       ∧ samplePayment.amount.valueCents = 2500
       ∧ samplePayment.fromUserId ≠ samplePayment.toUserId
       ∧ (processPaymentExecute maxReceiverWorld 7 "PAY_1").1
           = .error (.validation "Amount exceeds maximum allowed value")) :=
  ⟨⟨by decide, by decide, ⟨_, rfl, rfl⟩, by decide, by decide⟩,
   ⟨by decide, by decide, by decide, rfl⟩⟩

/-- C10 (amended): restricted to distinct sender and receiver whose stored
balances are valid Amounts and whose credited balance stays within the
bound, the sufficiency check is strict — a balance greater than or equal
to the amount completes the transfer (so the insufficient-balance failure
occurs only for a strictly smaller balance), and a balance exactly equal
to the amount completes with the sender's final persisted balance 0. -/
theorem claim_C10_amended_strict_sufficiency
    (w : World) (now : Nat) (tidStr tid : String) (payment : Payment)
    (sender receiver : UserAcct)
    (htid : TransactionId.create tidStr = .ok tid)
    (hpay : lookupKey w.payments tid = some payment)
    (hpend : payment.status = .PENDING)
    (hsender : lookupKey w.users payment.fromUserId = some sender)
    (hreceiver : lookupKey w.users payment.toUserId = some receiver)
    (hsid : sender.id = payment.fromUserId)
    (hrid : receiver.id = payment.toUserId)
    (hne : payment.fromUserId ≠ payment.toUserId)
    (hamt : 0 ≤ payment.amount.valueCents)
    (hsmax : sender.balance.valueCents ≤ 999999999)
    (hr0 : 0 ≤ receiver.balance.valueCents)
    (hrbound : receiver.balance.valueCents + payment.amount.valueCents ≤ 999999999) :
    (payment.amount.valueCents ≤ sender.balance.valueCents →
       ∃ resp w' tr, processPaymentExecute w now tidStr = (.ok resp, w', tr)
         ∧ resp.status = .COMPLETED)
    ∧ (sender.balance.valueCents = payment.amount.valueCents →
       ∃ resp w' tr, processPaymentExecute w now tidStr = (.ok resp, w', tr)
         ∧ resp.status = .COMPLETED
         ∧ (lookupKey w'.users payment.fromUserId).map
             (fun u => u.balance.valueCents) = some 0) := by
  constructor
  · intro hge
    have h6 : ¬ sender.balance.valueCents < payment.amount.valueCents := not_lt.mpr hge
    have hsa : Amount.createCents (sender.balance.valueCents - payment.amount.valueCents)
        = .ok ⟨sender.balance.valueCents - payment.amount.valueCents⟩ :=
      Amount.createCents_ok_of_bounds (by omega) (by omega)
    have hra : Amount.createCents (receiver.balance.valueCents + payment.amount.valueCents)
        = .ok ⟨receiver.balance.valueCents + payment.amount.valueCents⟩ :=
      Amount.createCents_ok_of_bounds (by omega) hrbound
    exact ⟨_, _, _,
      processPaymentExecute_success_run w now tidStr tid payment sender receiver _ _
        htid hpay hpend hsender hreceiver h6 hsa hra, rfl⟩
  · intro heq
    have hge : payment.amount.valueCents ≤ sender.balance.valueCents := le_of_eq heq.symm
    have h6 : ¬ sender.balance.valueCents < payment.amount.valueCents := not_lt.mpr hge
    have hsa : Amount.createCents (sender.balance.valueCents - payment.amount.valueCents)
        = .ok ⟨sender.balance.valueCents - payment.amount.valueCents⟩ :=
      Amount.createCents_ok_of_bounds (by omega) (by omega)
    have hra : Amount.createCents (receiver.balance.valueCents + payment.amount.valueCents)
        = .ok ⟨receiver.balance.valueCents + payment.amount.valueCents⟩ :=
      Amount.createCents_ok_of_bounds (by omega) hrbound
    refine ⟨_, _, _,
      processPaymentExecute_success_run w now tidStr tid payment sender receiver _ _
        htid hpay hpend hsender hreceiver h6 hsa hra, rfl, ?_⟩
    have hner : payment.fromUserId ≠ receiver.id := by
      rw [hrid]
      exact hne
    have hsender2 : lookupKey w.users sender.id = some sender := by
      rw [hsid]
      exact hsender
    dsimp only
    rw [lookupKey_setBalance_ne _ _ hner, ← hsid, lookupKey_setBalance_self, hsender2]
    simp [heq]

/-- C10 (amended) witness: "A" holding exactly 2500 cents sends the
2500-cent payment to "B" (holding 5000) and ends at exactly 0. -/
theorem claim_C10_amended_strict_sufficiency_witness :
    ((2500 : Int) ≤ 2500
     ∧ ∃ resp w' tr,
         processPaymentExecute
           { payments := [("PAY_1", samplePayment)],
             users := [("A", ⟨"A", "alice@payments.com", ⟨2500⟩⟩),
                       ("B", ⟨"B", "bob@payments.com", ⟨5000⟩⟩)] } 7 "PAY_1"
           = (.ok resp, w', tr)
         ∧ resp.status = .COMPLETED
         ∧ (lookupKey w'.users samplePayment.fromUserId).map
             (fun u => u.balance.valueCents) = some 0) :=
  ⟨by decide,
   (claim_C10_amended_strict_sufficiency
     { payments := [("PAY_1", samplePayment)],
       users := [("A", ⟨"A", "alice@payments.com", ⟨2500⟩⟩),
                 ("B", ⟨"B", "bob@payments.com", ⟨5000⟩⟩)] } 7 "PAY_1" "PAY_1"
     samplePayment ⟨"A", "alice@payments.com", ⟨2500⟩⟩ ⟨"B", "bob@payments.com", ⟨5000⟩⟩
     rfl (by decide) rfl (by decide) (by decide) rfl rfl (by decide)
     (by decide) (by decide) (by decide) (by decide)).2 rfl⟩

/-- C4: once a payment has been processed to COMPLETED, a second Process
call on the same transaction id fails with a `DomainRuleViolation`
(propagated from `process()`), writes nothing (empty trace), and returns
the stores exactly as the first call left them. -/
theorem claim_C4_second_process_rejected
    (w : World) (now now' : Nat) (tidStr tid : String)
    {resp : ProcessPaymentResponse} {w1 : World} {tr1 : List Event}
    (payment : Payment)
    (h : processPaymentExecute w now tidStr = (.ok resp, w1, tr1))
    (hst : resp.status = .COMPLETED)
    (htid : TransactionId.create tidStr = .ok tid)
    (hpay : lookupKey w.payments tid = some payment)
    (hid : payment.id = tid) :
    ∃ e, processPaymentExecute w1 now' tidStr = (.error (.domain e), w1, []) := by
  obtain ⟨tid', payment', sender', receiver', sa, ra, htid', hpay', hpend,
    hsender', hreceiver', hsuff, hsa, hra, hw1, htr, hresp⟩ :=
    processPaymentExecute_completed_inv w now tidStr resp w1 tr1 h hst
  rw [htid] at htid'
  injection htid' with he1
  subst he1
  rw [hpay] at hpay'
  injection hpay' with he2
  subst he2
  subst hw1
  have hlook : lookupKey (setKey (setKey w.payments payment.id (asProcessing payment now))
      payment.id (asCompleted payment now)) tid = some (asCompleted payment now) := by
    rw [← hid]
    exact lookupKey_setKey_self _ _ _
  have hproc2 : (asCompleted payment now).process now'
      = .error (.domainRuleViolation "Payment can only be processed from PENDING status") := by
    simp [Payment.process, asCompleted]
  exact ⟨.domainRuleViolation "Payment can only be processed from PENDING status",
    by simp only [processPaymentExecute, htid, hlook, hproc2]⟩

/-- C4 witness: processing Scenario B's payment a second time fails with a
domain-rule violation and leaves the world of the first call untouched. -/
theorem claim_C4_second_process_rejected_witness :
    ∃ e, processPaymentExecute (processPaymentExecute sampleWorld 7 "PAY_1").2.1 8 "PAY_1"
      = (.error (.domain e), (processPaymentExecute sampleWorld 7 "PAY_1").2.1, []) :=
  claim_C4_second_process_rejected sampleWorld 7 8 "PAY_1" "PAY_1" samplePayment
    rfl rfl rfl (by decide) rfl

/-- C3: a successful Process immediately followed (no intervening balance
change) by a successful Refund of the same transaction id restores both the
sender's and the receiver's persisted balances to their pre-Process values.
This holds for distinct accounts and also for a self-payment. -/
theorem claim_C3_process_refund_roundtrip
    (w : World) (now : Nat) (tidStr tid : String)
    {resp1 : ProcessPaymentResponse} {w1 : World} {tr1 : List Event}
    {resp2 : RefundPaymentResponse} {w2 : World} {tr2 : List Event}
    (payment : Payment) (sender receiver : UserAcct)
    (h1 : processPaymentExecute w now tidStr = (.ok resp1, w1, tr1))
    (hst : resp1.status = .COMPLETED)
    (h2 : refundPaymentExecute w1 tidStr = (.ok resp2, w2, tr2))
    (htid : TransactionId.create tidStr = .ok tid)
    (hpay : lookupKey w.payments tid = some payment)
    (hid : payment.id = tid)
    (hsender : lookupKey w.users payment.fromUserId = some sender)
    (hreceiver : lookupKey w.users payment.toUserId = some receiver)
    (hsid : sender.id = payment.fromUserId)
    (hrid : receiver.id = payment.toUserId) :
    (lookupKey w2.users payment.fromUserId).map (fun u => u.balance.valueCents)
      = some sender.balance.valueCents
    ∧ (lookupKey w2.users payment.toUserId).map (fun u => u.balance.valueCents)
      = some receiver.balance.valueCents := by
  obtain ⟨tid', payment', sender', receiver', sa, ra, htid', hpay', hpend,
    hsender', hreceiver', hsuff, hsa, hra, hw1, htr1, hresp1⟩ :=
    processPaymentExecute_completed_inv w now tidStr resp1 w1 tr1 h1 hst
  rw [htid] at htid'
  injection htid' with he1
  subst he1
  rw [hpay] at hpay'
  injection hpay' with he2
  subst he2
  rw [hsender] at hsender'
  injection hsender' with he3
  subst he3
  rw [hreceiver] at hreceiver'
  injection hreceiver' with he4
  subst he4
  obtain ⟨hsaval, hsa0, hsa9⟩ := Amount.createCents_ok_val hsa
  obtain ⟨hraval, hra0, hra9⟩ := Amount.createCents_ok_val hra
  subst hw1
  obtain ⟨tid2, payment2, sender2, receiver2, sa2, ra2, htid2, hpay2, hcompl2,
    hsender2, hreceiver2, hsuff2, hsa2, hra2, hw2, htr2, hresp2⟩ :=
    refundPaymentExecute_ok_inv _ tidStr resp2 w2 tr2 h2
  rw [htid] at htid2
  injection htid2 with hf1
  subst hf1
  dsimp only at hpay2 hsender2 hreceiver2 hsuff2 hsa2 hra2 hw2
  rw [show lookupKey (setKey (setKey w.payments payment.id (asProcessing payment now))
      payment.id (asCompleted payment now)) tid = some (asCompleted payment now) by
    rw [← hid]
    exact lookupKey_setKey_self _ _ _] at hpay2
  injection hpay2 with hf2
  subst hf2
  simp only [asCompleted_fromUserId, asCompleted_toUserId,
    asCompleted_amount] at hsender2 hreceiver2 hsuff2 hsa2 hra2 hw2
  by_cases hcase : payment.fromUserId = payment.toUserId
  · -- self-payment: the two lookups hit the same account
    have hrs : receiver = sender := by
      rw [← hcase] at hreceiver
      rw [hsender] at hreceiver
      injection hreceiver with hg
      exact hg.symm
    subst hrs
    have hlooks : lookupKey w.users receiver.id = some receiver := by
      rw [hsid]
      exact hsender
    rw [setBalance_setBalance_self] at hsender2 hreceiver2 hw2
    rw [← hsid, lookupKey_setBalance_self, hlooks] at hsender2
    simp only [Option.map_some'] at hsender2
    injection hsender2 with hg2
    subst hg2
    rw [← hrid, lookupKey_setBalance_self, hlooks] at hreceiver2
    simp only [Option.map_some'] at hreceiver2
    injection hreceiver2 with hg3
    subst hg3
    obtain ⟨hsa2val, -, -⟩ := Amount.createCents_ok_val hsa2
    obtain ⟨hra2val, -, -⟩ := Amount.createCents_ok_val hra2
    subst hw2
    dsimp only
    rw [setBalance_setBalance_self, setBalance_setBalance_self]
    constructor
    · rw [← hsid, lookupKey_setBalance_self, hlooks]
      simp only [Option.map_some', Option.some.injEq]
      dsimp only at hsa2val hra2val
      omega
    · rw [← hrid, lookupKey_setBalance_self, hlooks]
      simp only [Option.map_some', Option.some.injEq]
      dsimp only at hsa2val hra2val
      omega
  · -- distinct accounts
    have hner : payment.fromUserId ≠ receiver.id := by
      rw [hrid]
      exact hcase
    have hnes2 : receiver.id ≠ sender.id := by
      rw [hrid, hsid]
      exact fun hc => hcase hc.symm
    have hsenderSid : lookupKey w.users sender.id = some sender := by
      rw [hsid]
      exact hsender
    have hreceiverRid : lookupKey w.users receiver.id = some receiver := by
      rw [hrid]
      exact hreceiver
    rw [lookupKey_setBalance_ne _ ra hner, ← hsid, lookupKey_setBalance_self,
      hsenderSid] at hsender2
    simp only [Option.map_some'] at hsender2
    injection hsender2 with hg2
    subst hg2
    rw [← hrid, lookupKey_setBalance_self, lookupKey_setBalance_ne _ sa hnes2,
      hreceiverRid] at hreceiver2
    simp only [Option.map_some'] at hreceiver2
    injection hreceiver2 with hg3
    subst hg3
    obtain ⟨hsa2val, -, -⟩ := Amount.createCents_ok_val hsa2
    obtain ⟨hra2val, -, -⟩ := Amount.createCents_ok_val hra2
    have hner2 : sender.id ≠ receiver.id := by
      rw [hsid]
      exact hner
    subst hw2
    dsimp only
    constructor
    · rw [lookupKey_setBalance_ne _ ra2 hner, ← hsid, lookupKey_setBalance_self,
        lookupKey_setBalance_ne _ ra hner2, lookupKey_setBalance_self, hsenderSid]
      simp only [Option.map_some', Option.some.injEq]
      dsimp only at hsa2val
      omega
    · rw [← hrid, lookupKey_setBalance_self, lookupKey_setBalance_ne _ sa2 hnes2,
        lookupKey_setBalance_self, lookupKey_setBalance_ne _ sa hnes2, hreceiverRid]
      simp only [Option.map_some', Option.some.injEq]
      dsimp only at hra2val
      omega

/-- C3 witness: Scenario B then Scenario D — processing the 2500-cent
payment and refunding it returns "A" to 10000 and "B" to 5000 cents. -/
theorem claim_C3_process_refund_roundtrip_witness :
    (lookupKey (refundPaymentExecute
        (processPaymentExecute sampleWorld 7 "PAY_1").2.1 "PAY_1").2.1.users "A").map
      (fun u => u.balance.valueCents) = some 10000
    ∧ (lookupKey (refundPaymentExecute
        (processPaymentExecute sampleWorld 7 "PAY_1").2.1 "PAY_1").2.1.users "B").map
      (fun u => u.balance.valueCents) = some 5000 :=
  claim_C3_process_refund_roundtrip sampleWorld 7 "PAY_1" "PAY_1" samplePayment
    ⟨"A", "alice@payments.com", ⟨10000⟩⟩ ⟨"B", "bob@payments.com", ⟨5000⟩⟩
    rfl rfl rfl rfl (by decide) rfl (by decide) (by decide) rfl rfl

end Payments
